import Mathlib

/-!
Verification development for the Chimera context-engineering pipeline
(`chimera_core`): a shallow embedding, in Lean 4, of the pure data and
control structure of `orchestrator.py`, `context_engine.py` and the four
memory-tier managers, together with theorems settling the specified
properties of the pipeline.

Conventions of the embedding:
* External backends (Redis, SQLite, ChromaDB, Neo4j, the model providers,
  and Python's `json.loads`) are collaborators: their behaviour enters the
  embedding as explicit parameters (result values, outcome enumerations,
  or abstract functions), while every branch and data transformation of
  the repository's own code is translated directly from the source.
* Side effects are made visible as an explicit event trace (`Event`),
  emitted in the order the source performs the corresponding calls.
* Python exceptions are modelled with `Except`/`Option`: a caught
  exception is a handled constructor case, an uncaught one is an
  `Except.error` escaping the function.
-/

/-- Conversation roles as used by the pipeline (`turn_data["role"]`). -/
inductive Role
  | user
  | assistant
  | tool
  | system
deriving DecidableEq, Repr

/-- A single conversation turn as stored in the Redis short-term buffer
(`{"role": ..., "content": ...}`). -/
structure Turn where
  role : Role
  content : String
deriving DecidableEq, Repr

/-- The (provider, model) pair a model call is addressed to, i.e. the
arguments of `ApiManager.get_provider(provider_name, model=...)`. -/
structure ProviderKey where
  provider : String
  model : String
deriving DecidableEq, Repr

/-- The fixed key used by all three internal model calls of the pipeline:
`get_provider("openai", model="gpt-3.5-turbo")` in
`_extract_entities_with_gpt`, `_synthesize_context_with_gpt` and
`_summarize_and_update_mid_term_memory`. -/
def openai_internal_key : ProviderKey :=
  { provider := "openai", model := "gpt-3.5-turbo" }

/-- Why a model call is being made (the call site). -/
inductive Purpose
  | entityExtraction
  | contextSynthesis
  | backgroundSummary
  | mainChat
deriving DecidableEq, Repr

/-- The four memory tiers of the data model. -/
inductive Tier
  | keyValue
  | relational
  | similarity
  | graph
deriving DecidableEq, Repr

/-- Observable effects of the pipeline, emitted in source order. -/
inductive Event
  | providerRequest (purpose : Purpose) (key : ProviderKey)
  | summaryFetch
  | chromaQuery (query : String)
  | graphQuery (entity : String)
  | tierWrite (tier : Tier) (role : Role) (content : String)
  | summaryWrite (text : String) (watermark : Nat)
  | bufferTrim (keep : Nat)
  | toolExec (name : String)
  | scheduleSummarize
deriving DecidableEq, Repr

/-! ## Snippet deduplication (`context_engine.py` line 164)

`unique_snippets = list(dict.fromkeys(relevant_context_snippets))`:
keys are inserted in first-occurrence order, later duplicates are ignored,
and the key list is read back in insertion order. -/

/-- One step of `dict.fromkeys`: insert `x` at the end of the key list
unless it is already present. -/
def insert_key (ks : List String) (x : String) : List String :=
  if x ∈ ks then ks else ks ++ [x]

/-- Embedding of `list(dict.fromkeys(xs))`: fold the snippet list into an
insertion-ordered key list. -/
def dedup_snippets (xs : List String) : List String :=
  xs.foldl insert_key []

/-- Modelled from the spec's words ("removes exactly the later duplicates
under exact text equality while preserving first-occurrence order"): keep
the head, delete every later occurrence of it, recurse. Used only to be
compared with `dedup_snippets`, the definition taken from the source. -/
def remove_later_dups : List String → List String
  | [] => []
  | x :: rest => x :: remove_later_dups (rest.filter (fun y => y ≠ x))
termination_by l => l.length
decreasing_by
  simp only [List.length_cons]
  exact Nat.lt_succ_of_le (List.length_filter_le _ _)

theorem insert_key_mem (ks : List String) (x : String) (hx : x ∈ ks) :
    insert_key ks x = ks := by
  simp [insert_key, hx]

theorem insert_key_not_mem (ks : List String) (x : String) (hx : x ∉ ks) :
    insert_key ks x = ks ++ [x] := by
  simp [insert_key, hx]

/-- The accumulator-general characterisation of `dict.fromkeys`. -/
theorem foldl_insert_key (xs : List String) : ∀ ks : List String,
    xs.foldl insert_key ks = ks ++ remove_later_dups (xs.filter (fun y => y ∉ ks)) := by
  induction xs with
  | nil => intro ks; simp [remove_later_dups]
  | cons x rest ih =>
    intro ks
    by_cases hx : x ∈ ks
    · have hfilter :
          (x :: rest).filter (fun y => y ∉ ks) = rest.filter (fun y => y ∉ ks) := by
        simp [List.filter_cons, hx]
      rw [List.foldl_cons, insert_key_mem ks x hx, hfilter, ih ks]
    · have hfilter :
          (x :: rest).filter (fun y => y ∉ ks) = x :: rest.filter (fun y => y ∉ ks) := by
        simp [List.filter_cons, hx]
      rw [List.foldl_cons, insert_key_not_mem ks x hx, hfilter, ih (ks ++ [x])]
      have hpred :
          rest.filter (fun y => y ∉ ks ++ [x])
            = (rest.filter (fun y => y ∉ ks)).filter (fun y => y ≠ x) := by
        rw [List.filter_filter]
        apply List.filter_congr
        intro a _
        by_cases hak : a ∈ ks <;> by_cases hax : a = x <;>
          simp [hak, hax, List.mem_append]
      rw [hpred, remove_later_dups]
      simp

/-- Theorem: `dict.fromkeys` computes exactly the spec's first-occurrence
deduplication. -/
theorem dedup_snippets_eq_remove_later_dups (xs : List String) :
    dedup_snippets xs = remove_later_dups xs := by
  have h := foldl_insert_key xs []
  simpa [dedup_snippets, List.filter_eq_self.mpr] using h

theorem mem_remove_later_dups_aux : ∀ (n : Nat) (xs : List String), xs.length ≤ n →
    ∀ a : String, (a ∈ remove_later_dups xs ↔ a ∈ xs) := by
  intro n
  induction n with
  | zero =>
    intro xs hx a
    cases xs with
    | nil => simp [remove_later_dups]
    | cons x rest => simp at hx
  | succ n ih =>
    intro xs hx a
    cases xs with
    | nil => simp [remove_later_dups]
    | cons x rest =>
      have hlen : (rest.filter (fun y => y ≠ x)).length ≤ n :=
        Nat.le_trans (List.length_filter_le _ _) (Nat.le_of_succ_le_succ hx)
      rw [remove_later_dups]
      constructor
      · intro h
        rcases List.mem_cons.mp h with h | h
        · exact h ▸ List.mem_cons_self x rest
        · have := (ih _ hlen a).mp h
          exact List.mem_cons.mpr (Or.inr (List.mem_of_mem_filter this))
      · intro h
        rcases List.mem_cons.mp h with h | h
        · exact h ▸ List.mem_cons_self x _
        · by_cases hax : a = x
          · exact hax ▸ List.mem_cons_self x _
          · have hmem : a ∈ rest.filter (fun y => y ≠ x) :=
              List.mem_filter.mpr ⟨h, by simp [hax]⟩
            exact List.mem_cons.mpr (Or.inr ((ih _ hlen a).mpr hmem))

theorem mem_remove_later_dups (a : String) (xs : List String) :
    a ∈ remove_later_dups xs ↔ a ∈ xs :=
  mem_remove_later_dups_aux xs.length xs (Nat.le_refl _) a

theorem remove_later_dups_nodup_aux : ∀ (n : Nat) (xs : List String), xs.length ≤ n →
    (remove_later_dups xs).Nodup := by
  intro n
  induction n with
  | zero =>
    intro xs hx
    cases xs with
    | nil => simp [remove_later_dups]
    | cons x rest => simp at hx
  | succ n ih =>
    intro xs hx
    cases xs with
    | nil => simp [remove_later_dups]
    | cons x rest =>
      have hlen : (rest.filter (fun y => y ≠ x)).length ≤ n :=
        Nat.le_trans (List.length_filter_le _ _) (Nat.le_of_succ_le_succ hx)
      rw [remove_later_dups]
      refine List.nodup_cons.mpr ⟨?_, ih _ hlen⟩
      intro hmem
      have := (mem_remove_later_dups x _).mp hmem
      have := List.of_mem_filter this
      simp at this

theorem remove_later_dups_nodup (xs : List String) :
    (remove_later_dups xs).Nodup :=
  remove_later_dups_nodup_aux xs.length xs (Nat.le_refl _)

theorem remove_later_dups_eq_self_of_nodup : ∀ xs : List String,
    xs.Nodup → remove_later_dups xs = xs := by
  intro xs
  induction xs with
  | nil => intro _; simp [remove_later_dups]
  | cons x rest ih =>
    intro hnd
    rcases List.nodup_cons.mp hnd with ⟨hx, hrest⟩
    have hfilter : rest.filter (fun y => y ≠ x) = rest := by
      apply List.filter_eq_self.mpr
      intro a ha
      have : a ≠ x := fun h => hx (h ▸ ha)
      simp [this]
    rw [remove_later_dups, hfilter, ih hrest]

/-- Deduplication as performed by the source is idempotent. -/
theorem dedup_snippets_idem (xs : List String) :
    dedup_snippets (dedup_snippets xs) = dedup_snippets xs := by
  rw [dedup_snippets_eq_remove_later_dups xs,
      dedup_snippets_eq_remove_later_dups (remove_later_dups xs),
      remove_later_dups_eq_self_of_nodup _ (remove_later_dups_nodup xs)]

/-! ## Similarity-hit truncation (`context_engine.py` line 144)

`doc[:300] + "..." if len(doc) > 300 else doc`. -/

/-- Truncation of one similarity-index document before it joins the
candidate snippet list. -/
def truncate_doc (doc : String) : String :=
  if doc.length > 300 then doc.take 300 ++ "..." else doc

/-- Claim C8 — The deduplication applied to the candidate snippet list
(`list(dict.fromkeys(...))`) removes exactly the later duplicates under
exact text equality, preserving first-occurrence order (it coincides with
the recursive remove-later-duplicates function), and it is idempotent:
`dedup(dedup(xs)) = dedup(xs)`. -/
theorem dedup_removes_later_dups_and_is_idempotent (xs : List String) :
    dedup_snippets xs = remove_later_dups xs ∧
    dedup_snippets (dedup_snippets xs) = dedup_snippets xs :=
  ⟨dedup_snippets_eq_remove_later_dups xs, dedup_snippets_idem xs⟩

/-- Claim C9 — A similarity-index document longer than 300 characters is
included as its first 300 characters followed by the ellipsis marker
`"..."`; a document of length at most 300 is included unchanged. -/
theorem truncate_doc_spec (doc : String) :
    (300 < doc.length → truncate_doc doc = doc.take 300 ++ "...") ∧
    (doc.length ≤ 300 → truncate_doc doc = doc) := by
  constructor
  · intro h
    simp [truncate_doc, h]
  · intro h
    have : ¬ doc.length > 300 := Nat.not_lt.mpr h
    simp [truncate_doc, this]

/-- A 400-character document. -/
def doc400 : String := String.mk (List.replicate 400 'a')

set_option maxRecDepth 8192 in
theorem doc400_length_gt : 300 < doc400.length := by
  decide

/-- Witness for C9: the 400-character document is truncated to its first
300 characters plus the ellipsis marker, and a short document is kept
unchanged. -/
theorem truncate_doc_spec_witness :
    truncate_doc doc400 = doc400.take 300 ++ "..." ∧
    truncate_doc "hola" = "hola" :=
  ⟨(truncate_doc_spec doc400).1 doc400_length_gt,
   (truncate_doc_spec "hola").2 (by decide)⟩

/-! ## Short-term buffer primitives (`redis_manager.py`)

Redis list commands on the per-session key, as exercised by the pipeline.
Negative indices count from the right and Python's `-0` is `0`, so a
count of `0` denotes the whole list. -/

/-- Embedding of `get_recent_turns`: `lrange(key, -num_turns, -1)` returns the last
`num_turns` elements; with `num_turns = 0` the range is `(0, -1)`, the
entire list (the summarizer passes `num_turns=0` "para obtener todo"). -/
def get_recent_turns (num_turns : Nat) (buf : List Turn) : List Turn :=
  if num_turns = 0 then buf else buf.drop (buf.length - num_turns)

/-- Embedding of `trim_history`: `ltrim(key, -max_len, -1)` keeps the last `max_len`
elements. -/
def trim_history (max_len : Nat) (buf : List Turn) : List Turn :=
  if max_len = 0 then buf else buf.drop (buf.length - max_len)

/-- Embedding of `add_turn`: `rpush` appends the serialized turn at the right end. -/
def add_turn_buffer (buf : List Turn) (t : Turn) : List Turn :=
  buf ++ [t]

/-- Python's `str.strip()` with no arguments: remove leading and trailing
whitespace. (A structural embedding of the stdlib collaborator, used where
the source calls `.strip()`.) -/
def py_strip (s : String) : String :=
  String.mk (((s.data.dropWhile Char.isWhitespace).reverse.dropWhile
      Char.isWhitespace).reverse)

/-- Python's `str.startswith(prefix)`. (Structural embedding of the stdlib
collaborator, used where the source calls `.startswith`.) -/
def py_startswith (s pre : String) : Bool :=
  pre.data.isPrefixOf s.data

/-- Per-session persistent memory state as seen by the background
summarizer: the Redis turn buffer and the SQLite `sessions` row — summary
text plus turn-count watermark — or `none` when no row exists. -/
structure SessionState where
  buffer : List Turn
  summary : Option (String × Nat)
deriving DecidableEq, Repr

/-- A new turn appended by a later request (`RedisManager.add_turn`). -/
def add_turn (st : SessionState) (t : Turn) : SessionState :=
  { st with buffer := add_turn_buffer st.buffer t }

/-- Embedding of `SQLiteManager.update_summary`: `REPLACE INTO sessions` overwrites the
session's summary row unconditionally with the given text and turn
count — there is no comparison against the previous watermark. -/
def update_summary (st : SessionState) (text : String) (turn_count : Nat) :
    SessionState :=
  { st with summary := some (text, turn_count) }

/-- The turn-count watermark currently stored with the session's rolling
summary. -/
def watermark (st : SessionState) : Option Nat :=
  st.summary.map (fun p => p.2)

/-! ## Background summarizer
(`Orchestrator._summarize_and_update_mid_term_memory`)

The model backend enters as `model_result`: `some text` when
`generate_response` returns a message with content `text`; `none` when the
OpenAI provider is unavailable (early `return`), the call raises, or the
message carries no content (`.strip()` raises, caught by the blanket
`except`) — all paths that leave both stores untouched. The summarization
prompt assembled from `turns_to_summarize` and the previous summary is
elided: no claim refers to its text. -/
def summarize_and_update_mid_term_memory (model_result : Option String)
    (st : SessionState) : SessionState × List Event :=
  let all_turns := get_recent_turns 0 st.buffer
  if all_turns.length ≤ 10 then (st, [])
  else
    let evs := [Event.summaryFetch,
                Event.providerRequest .backgroundSummary openai_internal_key]
    match model_result with
    | none => (st, evs)
    | some text =>
        let summary_text := py_strip text
        let st1 := update_summary st summary_text all_turns.length
        let st2 := { st1 with buffer := trim_history 10 st1.buffer }
        (st2, evs ++ [Event.summaryWrite summary_text all_turns.length,
                      Event.bufferTrim 10])

/-- Claim C7 — The background summarizer is a no-op (state unchanged, no
store write, no trim) whenever the buffer holds at most 10 turns; when the
buffer length `L` exceeds 10 and the model call succeeds with `text`, the
stored summary becomes `text.trim` with watermark exactly `L`, and the
buffer is left holding exactly its last 10 turns. -/
theorem summarizer_noop_and_success (st : SessionState) (text : String) :
    (st.buffer.length ≤ 10 →
      ∀ r : Option String, summarize_and_update_mid_term_memory r st = (st, [])) ∧
    (10 < st.buffer.length →
      (summarize_and_update_mid_term_memory (some text) st).1.summary
          = some (py_strip text, st.buffer.length) ∧
      (summarize_and_update_mid_term_memory (some text) st).1.buffer
          = st.buffer.drop (st.buffer.length - 10) ∧
      (summarize_and_update_mid_term_memory (some text) st).1.buffer.length = 10) := by
  constructor
  · intro h r
    simp [summarize_and_update_mid_term_memory, get_recent_turns, h]
  · intro h
    have h' : ¬ st.buffer.length ≤ 10 := Nat.not_le.mpr h
    refine ⟨?_, ?_, ?_⟩
    · simp [summarize_and_update_mid_term_memory, get_recent_turns,
            update_summary, h']
    · simp [summarize_and_update_mid_term_memory, get_recent_turns,
            update_summary, trim_history, h']
    · simp [summarize_and_update_mid_term_memory, get_recent_turns,
            update_summary, trim_history, h', List.length_drop]
      omega

/-- A 15-turn buffer with no stored summary. -/
def c7_buffer15 : SessionState :=
  { buffer := List.replicate 15 { role := Role.user, content := "t" },
    summary := none }

/-- A 4-turn buffer with no stored summary. -/
def c7_buffer4 : SessionState :=
  { buffer := List.replicate 4 { role := Role.user, content := "t" },
    summary := none }

/-- Witness for C7: a 15-turn buffer with a successful model call yields
watermark 15 and a 10-turn buffer; a 4-turn buffer is a no-op. -/
theorem summarizer_noop_and_success_witness :
    (summarize_and_update_mid_term_memory (some "resumen") c7_buffer15).1.summary
        = some ("resumen", 15) ∧
    (summarize_and_update_mid_term_memory (some "resumen") c7_buffer15).1.buffer.length
        = 10 ∧
    summarize_and_update_mid_term_memory none c7_buffer4 = (c7_buffer4, []) := by
  have h15 := (summarizer_noop_and_success c7_buffer15 "resumen").2 (by decide)
  have h4 := (summarizer_noop_and_success c7_buffer4 "x").1 (by decide)
  exact ⟨h15.1.trans (by decide), h15.2.2, h4 none⟩

/-- Session evolution used to refute C2: a buffer that has grown to 14
turns before the dispatched background task runs. -/
def c2_start : SessionState :=
  { buffer := List.replicate 14 { role := Role.user, content := "t" },
    summary := none }

/-- First (successful) summarizer run: writes watermark 14, trims to 10. -/
def c2_after_run1 : SessionState :=
  (summarize_and_update_mid_term_memory (some "resumen uno") c2_start).1

/-- Two turns persisted by the next request. -/
def c2_grown : SessionState :=
  add_turn (add_turn c2_after_run1 { role := Role.user, content := "u" })
    { role := Role.assistant, content := "a" }

/-- Second (successful) summarizer run: observes a 12-turn buffer. -/
def c2_after_run2 : SessionState :=
  (summarize_and_update_mid_term_memory (some "resumen dos") c2_grown).1

/-- Claim C2, counterexample — A sequence of two successful
background-summarization runs in which the second successful summary
replacement writes watermark 12 over the previously stored watermark 14:
the turn-count watermark decreases, so the claimed invariant fails.
(`update_summary` performs a plain `REPLACE` with no monotonicity check.) -/
theorem watermark_decreases_counterexample :
    c2_after_run1.summary = some ("resumen uno", 14) ∧
    c2_after_run2.summary = some ("resumen dos", 12) ∧ (12 : Nat) < 14 := by
  refine ⟨by decide, by decide, by decide⟩

/-- Claim C2, amended — Each successful summary replacement writes as
watermark exactly the buffer length observed at that run, and any
watermark so written strictly exceeds the retention threshold 10; the
watermark is, however, not guaranteed to be non-decreasing across runs
(see the counterexample). -/
theorem watermark_written_equals_observed_length (st : SessionState)
    (text : String) (h : 10 < st.buffer.length) :
    watermark (summarize_and_update_mid_term_memory (some text) st).1
        = some st.buffer.length ∧
    ∀ w : Nat,
      watermark (summarize_and_update_mid_term_memory (some text) st).1 = some w →
      10 < w := by
  have h' : ¬ st.buffer.length ≤ 10 := Nat.not_le.mpr h
  constructor
  · simp [summarize_and_update_mid_term_memory, get_recent_turns,
          update_summary, watermark, h']
  · intro w hw
    simp [summarize_and_update_mid_term_memory, get_recent_turns,
          update_summary, watermark, h'] at hw
    omega

/-- An 11-turn buffer with a previously stored summary. -/
def c2_buffer11 : SessionState :=
  { buffer := List.replicate 11 { role := Role.user, content := "t" },
    summary := some ("previo", 11) }

/-- Witness for the amended C2: on an 11-turn buffer a successful run
writes watermark 11, which exceeds 10. -/
theorem watermark_written_equals_observed_length_witness :
    watermark (summarize_and_update_mid_term_memory (some "r") c2_buffer11).1
        = some 11 ∧
    10 < (11 : Nat) := by
  have h := watermark_written_equals_observed_length c2_buffer11 "r" (by decide)
  exact ⟨h.1.trans (by decide), by decide⟩

/-! ## Entity extraction (`ContextEngine._extract_entities_with_gpt`)

`json.loads` is a stdlib collaborator and enters as the abstract `parse`
function; the shape checks performed on its result are translated from the
source. -/

/-- JSON values as produced by `json.loads`. Numbers are collapsed to a
single argument-free constructor: the pipeline only ever distinguishes
strings from non-strings. -/
inductive PyJson
  | null
  | bool (b : Bool)
  | num
  | str (s : String)
  | arr (elems : List PyJson)
  | obj (fields : List (String × PyJson))

/-- Embedding of `isinstance(entities, list) and all(isinstance(e, str) for e in
entities)`: the element strings when every element is a string. -/
def all_strings : List PyJson → Option (List String)
  | [] => some []
  | .str s :: rest => (all_strings rest).map (fun ss => s :: ss)
  | _ :: _ => none

/-- Whether a parsed JSON value is a list whose every element is a
string. -/
def json_is_string_array (j : PyJson) : Bool :=
  match j with
  | .arr elems => (all_strings elems).isSome
  | _ => false

/-- Outcome of one provider round-trip as observed by the caller of
`generate_response`: the provider may be missing (`get_provider` returned
`None`), the call may raise, or it returns a message whose `content` may
be absent (`None`). -/
inductive CallOutcome
  | providerMissing
  | callRaised
  | returned (content : Option String)
deriving DecidableEq, Repr

/-- Embedding of `ContextEngine._extract_entities_with_gpt`. Paths, in source order:
provider missing → `[]`; the call raising → caught, `[]`; `content` being
`None` → `.strip()` raises `AttributeError`, caught by the blanket
`except`, `[]`; stripped content empty or not starting with `[` → `[]`;
`json.loads` failure → caught, `[]`; parsed value not a list of strings →
`[]`; otherwise the parsed strings. The extraction prompt text is elided:
no claim refers to it. -/
def extract_entities_with_gpt (parse : String → Except Unit PyJson)
    (outcome : CallOutcome) : List String :=
  match outcome with
  | .providerMissing => []
  | .callRaised => []
  | .returned none => []
  | .returned (some content) =>
      let entities_json := py_strip content
      if entities_json = "" || !(py_startswith entities_json "[") then []
      else
        match parse entities_json with
        | .error _ => []
        | .ok j =>
            match j with
            | .arr elems =>
                match all_strings elems with
                | some entities => entities
                | none => []
            | _ => []

/-- Claim C5 — For every model-backend behaviour, the entity extractor
returns the empty sequence (and, being a total function into
`List String`, lets no exception past its boundary) whenever the call
fails, the response content is absent or empty, does not begin with the
array-opening token, fails to parse as JSON, or parses to anything other
than a list of strings. -/
theorem extract_entities_safe (parse : String → Except Unit PyJson)
    (outcome : CallOutcome)
    (h : outcome = CallOutcome.providerMissing ∨
         outcome = CallOutcome.callRaised ∨
         outcome = CallOutcome.returned none ∨
         ∃ c, outcome = CallOutcome.returned (some c) ∧
           (py_strip c = "" ∨
            py_startswith (py_strip c) "[" = false ∨
            (∃ e, parse (py_strip c) = Except.error e) ∨
            (∃ j, parse (py_strip c) = Except.ok j ∧
                  json_is_string_array j = false))) :
    extract_entities_with_gpt parse outcome = [] := by
  rcases h with h | h | h | ⟨c, hc, hviol⟩
  · subst h; rfl
  · subst h; rfl
  · subst h; rfl
  · subst hc
    rcases hviol with h1 | h1 | ⟨e, h1⟩ | ⟨j, h1, h2⟩
    · simp [extract_entities_with_gpt, h1]
    · simp [extract_entities_with_gpt, h1]
    · by_cases hg : (py_strip c = "" || !(py_startswith (py_strip c) "[")) = true
      · simp [extract_entities_with_gpt, hg]
      · simp only [extract_entities_with_gpt, hg]
        simp [h1]
    · by_cases hg : (py_strip c = "" || !(py_startswith (py_strip c) "[")) = true
      · simp [extract_entities_with_gpt, hg]
      · simp only [extract_entities_with_gpt, hg]
        simp only [h1, Bool.false_eq_true, if_false]
        cases j with
        | arr elems =>
            simp only [json_is_string_array] at h2
            cases hall : all_strings elems with
            | none => simp [hall]
            | some ss => rw [hall] at h2; simp at h2
        | null => rfl
        | bool b => rfl
        | num => rfl
        | str s => rfl
        | obj fields => rfl

/-- Witness for C5: a non-JSON response (`"hola"`) yields the empty
sequence even under a parser that always fails. -/
theorem extract_entities_safe_witness :
    extract_entities_with_gpt (fun _ => Except.error ())
      (CallOutcome.returned (some "hola")) = [] :=
  extract_entities_safe (fun _ => Except.error ())
    (CallOutcome.returned (some "hola"))
    (Or.inr (Or.inr (Or.inr ⟨"hola", rfl, Or.inr (Or.inl (by decide))⟩)))

/-! ## Cascading session deletion (`Orchestrator.delete_session_data`)

Each per-tier manager handles its own backend errors; what can escape a
manager is captured by an outcome enumeration translated from the
manager's code paths. -/

/-- Backend outcomes of `SQLiteManager.delete_session`. `_get_connection`
is called *outside* the `try` block, so a connection error
(`sqlite3.Error` re-raised by `_get_connection`) escapes the method; an
error while executing the two `DELETE` statements is caught and turned
into a `False` return. -/
inductive SqliteDeleteOutcome
  | connFail
  | execFail
  | ok
deriving DecidableEq, Repr

/-- Backend outcomes of the Redis/Chroma/Neo4j delete methods: the client
may be unavailable (warn-and-return), the backend call may raise its
error class (caught and logged inside the manager), or it succeeds. -/
inductive TierCallOutcome
  | unavailable
  | backendError
  | ok
deriving DecidableEq, Repr

/-- Embedding of `SQLiteManager.delete_session`: raises on connection failure, returns
`False` when a `DELETE` raises `sqlite3.Error` (caught), `True`
otherwise. -/
def sqlite_delete_session : SqliteDeleteOutcome → Except Unit Bool
  | .connFail => Except.error ()
  | .execFail => Except.ok false
  | .ok => Except.ok true

/-- Embedding of `RedisManager.delete_session_history`: returns `None` on every path —
missing client and `redis.exceptions.RedisError` are both handled
internally. -/
def redis_delete_session_history : TierCallOutcome → Except Unit Unit
  | .unavailable => Except.ok ()
  | .backendError => Except.ok ()
  | .ok => Except.ok ()

/-- Embedding of `ChromaManager.delete_session_entries`: returns `None` on every path —
missing collection and any `Exception` are handled internally. -/
def chroma_delete_session_entries : TierCallOutcome → Except Unit Unit
  | .unavailable => Except.ok ()
  | .backendError => Except.ok ()
  | .ok => Except.ok ()

/-- Embedding of `Neo4jManager.delete_session_graph`: returns `None` on every path —
missing driver and any `Exception` are handled internally. -/
def neo4j_delete_session_graph : TierCallOutcome → Except Unit Unit
  | .unavailable => Except.ok ()
  | .backendError => Except.ok ()
  | .ok => Except.ok ()

/-- Embedding of `Orchestrator.delete_session_data`: runs the four per-tier deletions
in order inside one `try` (the graph deletion only when
`self.context_engine.neo4j_manager` is not `None`, modelled by the
`Option`), returns `True` if no call raised and `False` if one did. The
`False` returned by `SQLiteManager.delete_session` on an execution error
is discarded: the source never inspects the sub-calls' return values. -/
def delete_session_data (s : SqliteDeleteOutcome) (r : TierCallOutcome)
    (c : TierCallOutcome) (n : Option TierCallOutcome) : Bool :=
  let cascade : Except Unit Unit := do
    let _ ← sqlite_delete_session s
    let _ ← redis_delete_session_history r
    let _ ← chroma_delete_session_entries c
    match n with
    | some o => neo4j_delete_session_graph o
    | none => Except.ok ()
  match cascade with
  | Except.ok _ => true
  | Except.error _ => false

/-- Claim C1, counterexample — A relational deletion that fails (the
`DELETE` statements raise `sqlite3.Error`, so `delete_session` returns
`False`) while the other three tiers succeed: the sub-store deletion
failed, yet `delete_session_data` still reports success, refuting the
all-or-nothing claim. -/
theorem delete_reports_success_despite_failure :
    delete_session_data SqliteDeleteOutcome.execFail TierCallOutcome.ok
        TierCallOutcome.ok (some TierCallOutcome.ok) = true ∧
    sqlite_delete_session SqliteDeleteOutcome.execFail = Except.ok false := by
  exact ⟨rfl, rfl⟩

/-- Claim C1, amended — Session deletion reports failure exactly when a
sub-store call raises out of its manager, which among the embedded code
paths happens only for the relational manager's connection acquisition
(performed outside its `try` block); every failure a manager handles
internally — a relational `DELETE` error (returned as `False` and
discarded), an unavailable or erroring key-value, similarity or graph
backend, or an absent graph manager — still ends in the operation
reporting success. -/
theorem delete_reports_failure_iff_sqlite_conn_fails
    (s : SqliteDeleteOutcome) (r : TierCallOutcome) (c : TierCallOutcome)
    (n : Option TierCallOutcome) :
    delete_session_data s r c n = false ↔ s = SqliteDeleteOutcome.connFail := by
  cases s <;> cases r <;> cases c <;> rcases n with _ | o <;>
    first
      | decide
      | (cases o <;> decide)

/-- Witness for the amended C1: a connection failure in the relational
manager makes the whole operation report failure. -/
theorem delete_reports_failure_iff_sqlite_conn_fails_witness :
    delete_session_data SqliteDeleteOutcome.connFail TierCallOutcome.ok
        TierCallOutcome.ok none = false :=
  (delete_reports_failure_iff_sqlite_conn_fails SqliteDeleteOutcome.connFail
      TierCallOutcome.ok TierCallOutcome.ok none).mpr rfl

/-! ## Context build (`ContextEngine.build_augmented_prompt`) -/

/-- PASO 0: `if summary and summary[0]:` — the row exists and its text is
non-empty; then the summary text is seeded as the first snippet
candidate. -/
def summary_candidates : Option (String × Nat) → List String
  | some (text, _) => if text = "" then [] else [text]
  | none => []

/-- The similarity-search query assembled per entity. -/
def chroma_search_query (entity : String) : String :=
  "¿Qué información relevante hay sobre " ++ entity ++ "?"

/-- The per-entity relation sentence assembled from the graph tier's
results. -/
def graph_sentence (entity : String) (related : List String) : String :=
  "Sobre el concepto \x27" ++ entity ++
  "\x27, el sistema también conoce estos temas relacionados: " ++
  String.intercalate ", " related ++ "."

/-- The external collaborators of one request, as observed by the context
engine: the stored summary row, `json.loads`, the per-text entity
extraction outcome, the similarity index's documents per query, the graph
manager's presence and its related-entity results, and the synthesis call
outcome. -/
structure ContextEnv where
  summary : Option (String × Nat)
  parse : String → Except Unit PyJson
  extractionOutcome : String → CallOutcome
  chromaDocs : String → List String
  neo4jAvailable : Bool
  graphRelated : String → List String
  synthesisOutcome : CallOutcome

/-- The ChromaDB for-loop of PASO 2: one scoped similarity query per
entity; non-empty document lists are truncated and appended in order.
(`search_similar` returning `[]` covers both an erroring backend and an
empty result, exactly as the guard in the source treats them.) -/
def chroma_loop (env : ContextEnv) : List String → List String × List Event
  | [] => ([], [])
  | e :: rest =>
      let docs := env.chromaDocs (chroma_search_query e)
      let snips := if docs = [] then [] else docs.map truncate_doc
      let tail := chroma_loop env rest
      (snips ++ tail.1, Event.chromaQuery (chroma_search_query e) :: tail.2)

/-- The Neo4j for-loop of PASO 3: one related-entities query per entity;
entities with results contribute one sentence each to
`structural_info_parts`. -/
def graph_loop (env : ContextEnv) : List String → List String × List Event
  | [] => ([], [])
  | e :: rest =>
      let related := env.graphRelated e
      let part := if related = [] then [] else [graph_sentence e related]
      let tail := graph_loop env rest
      (part ++ tail.1, Event.graphQuery e :: tail.2)

/-- Embedding of `ContextEngine._synthesize_context_with_gpt`: empty snippet list →
empty string with no model call; otherwise one call to the fixed internal
provider whose failure paths (missing provider, raised call, absent
content) all yield the empty string. The synthesis prompt text is elided:
no claim refers to it. -/
def synthesize_context_with_gpt (combined_snippets : List String)
    (outcome : CallOutcome) : String × List Event :=
  if combined_snippets = [] then ("", [])
  else
    let text :=
      match outcome with
      | CallOutcome.providerMissing => ""
      | CallOutcome.callRaised => ""
      | CallOutcome.returned none => ""
      | CallOutcome.returned (some c) => py_strip c
    (text, [Event.providerRequest Purpose.contextSynthesis openai_internal_key])

/-- Result of `build_augmented_prompt`. The assembled system-prompt text
(persona preamble, directive instruction, closing instruction) is elided:
no claim refers to it; `finalContext` is the context block that enters
it. -/
structure PromptBuild where
  entities : List String
  candidates : List String
  uniqueSnippets : List String
  finalContext : String
  history : List Turn
  events : List Event

/-- Embedding of `ContextEngine.build_augmented_prompt`, phases in source order:
PASO 0 summary fetch and seeding, PASO 1 entity extraction, PASO 2/3
long-term queries only when entities were found (with the graph block
further guarded by the manager's presence, and its sentences joined into
a single combined snippet), PASO 4 deduplication, PASO 5 synthesis, then
recent-history retrieval. -/
def build_augmented_prompt (user_prompt : String) (buffer : List Turn)
    (env : ContextEnv) : PromptBuild :=
  let snippets0 := summary_candidates env.summary
  let entity_names :=
    extract_entities_with_gpt env.parse (env.extractionOutcome user_prompt)
  let long_term : List String × List Event :=
    if entity_names = [] then ([], [])
    else
      let cresult := chroma_loop env entity_names
      let gresult :=
        if env.neo4jAvailable then graph_loop env entity_names else ([], [])
      let gsnips :=
        if gresult.1 = [] then [] else [String.intercalate " " gresult.1]
      (cresult.1 ++ gsnips, cresult.2 ++ gresult.2)
  let relevant_context_snippets := snippets0 ++ long_term.1
  let unique_snippets := dedup_snippets relevant_context_snippets
  let synth := synthesize_context_with_gpt unique_snippets env.synthesisOutcome
  let final_context :=
    if synth.1 = "" then ""
    else "--- CONTEXTO DE MEMORIA A LARGO-MEDIO PLAZO ---\n" ++ synth.1
  { entities := entity_names
    candidates := relevant_context_snippets
    uniqueSnippets := unique_snippets
    finalContext := final_context
    history := get_recent_turns 10 buffer
    events := Event.summaryFetch ::
              Event.providerRequest Purpose.entityExtraction openai_internal_key ::
              (long_term.2 ++ synth.2) }

/-! ## Turn persistence (`ContextEngine.save_turn`) -/

/-- Store calls made by `save_turn`, in source order: two `rpush`es to the
key-value store, one similarity-index insert of the assistant response
only, and — only when the graph manager exists — one entity extraction
over the assistant response followed by the two graph message upserts.
`save_turn` never touches the relational store. The per-turn entity
payload attached to the graph writes is elided: no claim refers to it. -/
def save_turn_events (user_prompt assistant_response : String)
    (neo4jAvailable : Bool) : List Event :=
  [Event.tierWrite Tier.keyValue Role.user user_prompt,
   Event.tierWrite Tier.keyValue Role.assistant assistant_response,
   Event.tierWrite Tier.similarity Role.assistant assistant_response]
  ++ (if neo4jAvailable then
        [Event.providerRequest Purpose.entityExtraction openai_internal_key,
         Event.tierWrite Tier.graph Role.user user_prompt,
         Event.tierWrite Tier.graph Role.assistant assistant_response]
      else [])

/-! ## Tool-call loop and request handling (`Orchestrator.handle_user_request`) -/

/-- One requested tool invocation inside a model response. `argsValid`
records whether `json.loads` accepts its argument payload; when it does
not, the source substitutes `{}` and still executes the tool. -/
structure ToolCall where
  id : String
  name : String
  argsValid : Bool
deriving DecidableEq, Repr

/-- A model response message: optional text content plus requested tool
invocations (`tool_calls`, empty when none). -/
structure Msg where
  content : Option String
  toolCalls : List ToolCall
deriving DecidableEq, Repr

/-- One EXECUTING_TOOLS round: for each requested invocation in order,
resolve the owning plugin; unresolved names are skipped (`continue`),
resolved ones are executed (invalid arguments having been replaced by the
empty set, so they execute regardless of `argsValid`). The appending of
tool results to the conversation state is elided: no claim refers to
it. -/
def tool_round_events (find_plugin : String → Option String)
    (tcs : List ToolCall) : List Event :=
  tcs.filterMap
    (fun tc => (find_plugin tc.name).map (fun _ => Event.toolExec tc.name))

/-- The `while response_message and response_message.tool_calls:` loop.
`script` holds the results of the successive follow-up `generate_response`
calls; an exhausted script models the provider producing nothing usable
(`None`), which also terminates the loop. Returns the terminal response
and the events of all rounds. -/
def tool_loop (main_key : ProviderKey) (find_plugin : String → Option String) :
    List (Option Msg) → Option Msg → Option Msg × List Event
  | _, none => (none, [])
  | script, some m =>
      if m.toolCalls = [] then (some m, [])
      else
        let es := tool_round_events find_plugin m.toolCalls
        match script with
        | [] => (none, es ++ [Event.providerRequest Purpose.mainChat main_key])
        | r :: rest =>
            let tail := tool_loop main_key find_plugin rest r
            (tail.1, es ++ Event.providerRequest Purpose.mainChat main_key :: tail.2)

/-- The initial AWAITING_MODEL call followed by the tool loop: the first
`generate_response` is always issued; its result is the script's head. -/
def run_model_rounds (main_key : ProviderKey)
    (find_plugin : String → Option String) (script : List (Option Msg)) :
    Option Msg × List Event :=
  match script with
  | [] => (none, [Event.providerRequest Purpose.mainChat main_key])
  | r :: rest =>
      let tail := tool_loop main_key find_plugin rest r
      (tail.1, Event.providerRequest Purpose.mainChat main_key :: tail.2)

/-- The mutable process-wide LLM settings after `update_llm_settings` has
applied the request's values (every request overwrites all four fields;
`temperature` and `max_tokens` are passed through to the main calls and
never influence addressing, so they are elided). -/
structure LLMConfig where
  provider_name : String
  model_name : String
deriving DecidableEq, Repr

/-- What `handle_user_request` returns to the caller: the error dictionary
when the configured provider is not found, otherwise the response
dictionary (whose text is `None` exactly when the terminal message has no
content). Both are ordinary returns — the source raises nothing on these
paths. -/
inductive HandleResult
  | providerError (provider_name : String)
  | answered (text : Option String)
deriving DecidableEq, Repr

/-- The fallback answer substituted when no response message was
received. -/
def fallback_answer : String := "No se recibió respuesta del LLM."

/-- Embedding of `Orchestrator.handle_user_request`, phases in source order: context
build, provider lookup (error return when missing), the initial model call
plus tool-call loop, the fallback for an absent terminal response, one
`save_turn`, and the conditional background-summarizer dispatch (the
buffer has grown by the two just-saved turns when `llen` is read). A
terminal message whose `content` is `None` is persisted with empty text
here (the Python runtime would store a JSON `null`). -/
def handle_user_request (cfg : LLMConfig) (env : ContextEnv)
    (buffer : List Turn) (provider_found : Bool)
    (script : List (Option Msg)) (find_plugin : String → Option String)
    (user_prompt : String) : HandleResult × List Event :=
  let pb := build_augmented_prompt user_prompt buffer env
  if provider_found then
    let main_key : ProviderKey :=
      { provider := cfg.provider_name, model := cfg.model_name }
    let rounds := run_model_rounds main_key find_plugin script
    let final_response_text : Option String :=
      match rounds.1 with
      | some m => m.content
      | none => some fallback_answer
    let save_events :=
      save_turn_events user_prompt
        (match final_response_text with | some t => t | none => "")
        env.neo4jAvailable
    let turn_count := buffer.length + 2
    let sched_events :=
      if turn_count > 10 then [Event.scheduleSummarize] else []
    (HandleResult.answered final_response_text,
     pb.events ++ rounds.2 ++ save_events ++ sched_events)
  else
    (HandleResult.providerError cfg.provider_name, pb.events)

/-! ## Event classification helpers -/

/-- Whether an event is a write to some memory tier. -/
def is_tier_write : Event → Bool
  | Event.tierWrite _ _ _ => true
  | _ => false

/-- Whether an event writes the given tier. -/
def writes_tier (t : Tier) : Event → Bool
  | Event.tierWrite u _ _ => u == t
  | _ => false

/-- Whether an event is a similarity-index query. -/
def is_chroma_query : Event → Bool
  | Event.chromaQuery _ => true
  | _ => false

/-- Whether an event is a relationship-graph query. -/
def is_graph_query : Event → Bool
  | Event.graphQuery _ => true
  | _ => false

/-- Whether an event is a model request issued on behalf of the main
conversation. -/
def is_main_chat_request : Event → Bool
  | Event.providerRequest p _ => p == Purpose.mainChat
  | _ => false

/-- Whether an event is an internal (non-main-chat) model request. -/
def is_internal_request : Event → Bool
  | Event.providerRequest p _ => !(p == Purpose.mainChat)
  | _ => false

/-- An event respects the internal-addressing discipline: any model
request that is not the main conversation's is addressed to
`openai_internal_key`. -/
def internal_call_ok : Event → Bool
  | Event.providerRequest p k => p == Purpose.mainChat || k == openai_internal_key
  | _ => true

/-! ## Shape lemmas about the emitted traces -/

theorem chroma_loop_events_mem (env : ContextEnv) :
    ∀ (l : List String) (e : Event), e ∈ (chroma_loop env l).2 →
      ∃ q, e = Event.chromaQuery q := by
  intro l
  induction l with
  | nil => intro e he; simp [chroma_loop] at he
  | cons x rest ih =>
    intro e he
    simp only [chroma_loop] at he
    rcases List.mem_cons.mp he with h | h
    · exact ⟨_, h⟩
    · exact ih e h

theorem graph_loop_events_mem (env : ContextEnv) :
    ∀ (l : List String) (e : Event), e ∈ (graph_loop env l).2 →
      ∃ q, e = Event.graphQuery q := by
  intro l
  induction l with
  | nil => intro e he; simp [graph_loop] at he
  | cons x rest ih =>
    intro e he
    simp only [graph_loop] at he
    rcases List.mem_cons.mp he with h | h
    · exact ⟨_, h⟩
    · exact ih e h

theorem synthesize_events_mem (s : List String) (o : CallOutcome) (e : Event)
    (he : e ∈ (synthesize_context_with_gpt s o).2) :
    e = Event.providerRequest Purpose.contextSynthesis openai_internal_key := by
  by_cases hs : s = []
  · simp [synthesize_context_with_gpt, hs] at he
  · simp only [synthesize_context_with_gpt, if_neg hs] at he
    simpa using he

theorem build_events_mem (user_prompt : String) (buffer : List Turn)
    (env : ContextEnv) (e : Event)
    (he : e ∈ (build_augmented_prompt user_prompt buffer env).events) :
    e = Event.summaryFetch ∨
    e = Event.providerRequest Purpose.entityExtraction openai_internal_key ∨
    (∃ q, e = Event.chromaQuery q) ∨
    (∃ q, e = Event.graphQuery q) ∨
    e = Event.providerRequest Purpose.contextSynthesis openai_internal_key := by
  simp only [build_augmented_prompt] at he
  rcases List.mem_cons.mp he with h | he
  · exact Or.inl h
  rcases List.mem_cons.mp he with h | he
  · exact Or.inr (Or.inl h)
  rcases List.mem_append.mp he with h | h
  · by_cases hent :
        extract_entities_with_gpt env.parse (env.extractionOutcome user_prompt) = []
    · simp [hent] at h
    · simp only [if_neg hent] at h
      rcases List.mem_append.mp h with h | h
      · exact Or.inr (Or.inr (Or.inl (chroma_loop_events_mem env _ e h)))
      · by_cases hneo : env.neo4jAvailable
        · simp only [if_pos hneo] at h
          exact Or.inr (Or.inr (Or.inr (Or.inl (graph_loop_events_mem env _ e h))))
        · simp [hneo] at h
  · exact Or.inr (Or.inr (Or.inr (Or.inr (synthesize_events_mem _ _ e h))))

theorem tool_round_events_mem (fp : String → Option String)
    (tcs : List ToolCall) (e : Event) (he : e ∈ tool_round_events fp tcs) :
    ∃ n, e = Event.toolExec n := by
  simp only [tool_round_events, List.mem_filterMap] at he
  rcases he with ⟨tc, _, htc⟩
  rcases Option.map_eq_some'.mp htc with ⟨p, _, hp⟩
  exact ⟨tc.name, hp.symm⟩

theorem tool_loop_events_mem (k : ProviderKey) (fp : String → Option String) :
    ∀ (script : List (Option Msg)) (r : Option Msg) (e : Event),
      e ∈ (tool_loop k fp script r).2 →
      (∃ n, e = Event.toolExec n) ∨ e = Event.providerRequest Purpose.mainChat k := by
  intro script
  induction script with
  | nil =>
    intro r e he
    cases r with
    | none => simp [tool_loop] at he
    | some m =>
      by_cases hm : m.toolCalls = []
      · simp [tool_loop, hm] at he
      · simp only [tool_loop, if_neg hm] at he
        rcases List.mem_append.mp he with h | h
        · exact Or.inl (tool_round_events_mem fp _ e h)
        · simp at h
          exact Or.inr h
  | cons r0 rest ih =>
    intro r e he
    cases r with
    | none => simp [tool_loop] at he
    | some m =>
      by_cases hm : m.toolCalls = []
      · simp [tool_loop, hm] at he
      · simp only [tool_loop, if_neg hm] at he
        rcases List.mem_append.mp he with h | h
        · exact Or.inl (tool_round_events_mem fp _ e h)
        · rcases List.mem_cons.mp h with h | h
          · exact Or.inr h
          · exact ih r0 e h

theorem run_model_rounds_events_mem (k : ProviderKey)
    (fp : String → Option String) (script : List (Option Msg)) (e : Event)
    (he : e ∈ (run_model_rounds k fp script).2) :
    (∃ n, e = Event.toolExec n) ∨ e = Event.providerRequest Purpose.mainChat k := by
  cases script with
  | nil =>
    simp only [run_model_rounds] at he
    simp at he
    exact Or.inr he
  | cons r rest =>
    simp only [run_model_rounds] at he
    rcases List.mem_cons.mp he with h | h
    · exact Or.inr h
    · exact tool_loop_events_mem k fp rest r e h

/-! ## C6 — empty entity sequence short-circuits long-term retrieval -/

/-- Claim C6 — When the extracted entity sequence is empty, the context
build issues no similarity-index query and no relationship-graph query,
yet the rolling summary is still fetched, and the candidate snippet list
is exactly the summary seeded by PASO 0 (the summary text when the row
exists with non-empty text, nothing otherwise). -/
theorem retrieval_short_circuit (user_prompt : String) (buffer : List Turn)
    (env : ContextEnv)
    (h : extract_entities_with_gpt env.parse (env.extractionOutcome user_prompt) = []) :
    (build_augmented_prompt user_prompt buffer env).candidates
        = summary_candidates env.summary ∧
    (build_augmented_prompt user_prompt buffer env).events.filter is_chroma_query = [] ∧
    (build_augmented_prompt user_prompt buffer env).events.filter is_graph_query = [] ∧
    Event.summaryFetch ∈ (build_augmented_prompt user_prompt buffer env).events := by
  have hev : (build_augmented_prompt user_prompt buffer env).events
      = Event.summaryFetch ::
        Event.providerRequest Purpose.entityExtraction openai_internal_key ::
        (synthesize_context_with_gpt (dedup_snippets (summary_candidates env.summary))
            env.synthesisOutcome).2 := by
    simp [build_augmented_prompt, h]
  refine ⟨?_, ?_, ?_, ?_⟩
  · simp [build_augmented_prompt, h]
  · rw [hev]
    refine List.filter_eq_nil_iff.mpr ?_
    intro e he
    rcases List.mem_cons.mp he with rfl | he
    · simp [is_chroma_query]
    rcases List.mem_cons.mp he with rfl | he
    · simp [is_chroma_query]
    · rw [synthesize_events_mem _ _ e he]
      simp [is_chroma_query]
  · rw [hev]
    refine List.filter_eq_nil_iff.mpr ?_
    intro e he
    rcases List.mem_cons.mp he with rfl | he
    · simp [is_graph_query]
    rcases List.mem_cons.mp he with rfl | he
    · simp [is_graph_query]
    · rw [synthesize_events_mem _ _ e he]
      simp [is_graph_query]
  · rw [hev]
    exact List.mem_cons_self _ _

/-- Environment for the C6 witness: a stored non-empty summary, an
extraction response that is not JSON (hence an empty entity sequence), and
long-term tiers that would answer if queried. -/
def c6_env : ContextEnv :=
  { summary := some ("resumen previo", 12)
    parse := fun _ => Except.error ()
    extractionOutcome := fun _ => CallOutcome.returned (some "sin json")
    chromaDocs := fun _ => ["doc"]
    neo4jAvailable := true
    graphRelated := fun _ => ["rel"]
    synthesisOutcome := CallOutcome.returned (some "sintetizado") }

/-- Witness for C6: with `c6_env` the candidate list is exactly the stored
summary text, no similarity or graph query is issued, and the summary
fetch still happens. -/
theorem retrieval_short_circuit_witness :
    (build_augmented_prompt "hola" [] c6_env).candidates = ["resumen previo"] ∧
    (build_augmented_prompt "hola" [] c6_env).events.filter is_chroma_query = [] ∧
    (build_augmented_prompt "hola" [] c6_env).events.filter is_graph_query = [] ∧
    Event.summaryFetch ∈ (build_augmented_prompt "hola" [] c6_env).events := by
  have h := retrieval_short_circuit "hola" [] c6_env (by decide)
  exact ⟨h.1.trans (by decide), h.2.1, h.2.2.1, h.2.2.2⟩

/-! ## C4 — terminal model failure yields the fallback answer -/

/-- Claim C4 — For every script of model-round results: whenever the
model call issued in some AWAITING_MODEL state fails terminally (the
rounds end with no usable response message, whichever round that happens
in — the first call, a follow-up call after tool rounds, or an exhausted
provider), the handler returns the generic fallback answer as an ordinary
`answered` result; no exception escapes (the embedded result type is a
plain value and the source path performs no `raise`). -/
theorem awaiting_model_failure_returns_fallback (cfg : LLMConfig)
    (env : ContextEnv) (buffer : List Turn) (script : List (Option Msg))
    (find_plugin : String → Option String) (user_prompt : String)
    (h : (run_model_rounds
        { provider := cfg.provider_name, model := cfg.model_name }
        find_plugin script).1 = none) :
    (handle_user_request cfg env buffer true script find_plugin
        user_prompt).1 = HandleResult.answered (some fallback_answer) := by
  simp [handle_user_request, h]

/-- Collaborator environment for the C4 witness. -/
def c4_env : ContextEnv :=
  { summary := none
    parse := fun _ => Except.error ()
    extractionOutcome := fun _ => CallOutcome.callRaised
    chromaDocs := fun _ => []
    neo4jAvailable := false
    graphRelated := fun _ => []
    synthesisOutcome := CallOutcome.callRaised }

/-- Script in which the first AWAITING_MODEL call requests a tool, the
tool round runs, and the follow-up AWAITING_MODEL call then fails
terminally. -/
def c4_mid_loop_script : List (Option Msg) :=
  [some { content := none,
          toolCalls := [{ id := "1", name := "buscar", argsValid := true }] },
   none]

/-- Witness for C4: the fallback answer is returned when the terminal
failure hits the follow-up call after a tool round, when it hits the very
first call, and when the provider yields nothing at all. -/
theorem awaiting_model_failure_returns_fallback_witness :
    (handle_user_request { provider_name := "openai", model_name := "gpt-4o-mini" }
        c4_env [] true c4_mid_loop_script (fun _ => some "plugin") "hola").1
      = HandleResult.answered (some fallback_answer) ∧
    (handle_user_request { provider_name := "openai", model_name := "gpt-4o-mini" }
        c4_env [] true [none] (fun _ => some "plugin") "hola").1
      = HandleResult.answered (some fallback_answer) ∧
    (handle_user_request { provider_name := "openai", model_name := "gpt-4o-mini" }
        c4_env [] true [] (fun _ => some "plugin") "hola").1
      = HandleResult.answered (some fallback_answer) :=
  ⟨awaiting_model_failure_returns_fallback _ c4_env [] c4_mid_loop_script
      (fun _ => some "plugin") "hola" (by decide),
   awaiting_model_failure_returns_fallback _ c4_env [] [none]
      (fun _ => some "plugin") "hola" (by decide),
   awaiting_model_failure_returns_fallback _ c4_env [] []
      (fun _ => some "plugin") "hola" (by decide)⟩

/-! ## C3 — what turn persistence actually writes, and when -/

/-- The per-tier write pattern of one `save_turn`: nothing to the
relational store, the user and assistant turns to the key-value store, the
assistant turn only to the similarity index, both turns to the graph
exactly when the graph manager exists, and no main-chat model request. -/
theorem save_turn_events_filters (u a : String) (b : Bool) :
    (save_turn_events u a b).filter (writes_tier Tier.relational) = [] ∧
    (save_turn_events u a b).filter (writes_tier Tier.keyValue)
      = [Event.tierWrite Tier.keyValue Role.user u,
         Event.tierWrite Tier.keyValue Role.assistant a] ∧
    (save_turn_events u a b).filter (writes_tier Tier.similarity)
      = [Event.tierWrite Tier.similarity Role.assistant a] ∧
    (save_turn_events u a b).filter (writes_tier Tier.graph)
      = (if b then
           [Event.tierWrite Tier.graph Role.user u,
            Event.tierWrite Tier.graph Role.assistant a]
         else []) ∧
    (save_turn_events u a b).all (fun e => !(is_main_chat_request e)) = true := by
  cases b <;> exact ⟨rfl, rfl, rfl, rfl, rfl⟩

/-- Collaborator environment for the C3 counterexample: graph manager
present, no stored summary, failing extraction, empty long-term tiers. -/
def c3_env : ContextEnv :=
  { summary := none
    parse := fun _ => Except.error ()
    extractionOutcome := fun _ => CallOutcome.callRaised
    chromaDocs := fun _ => []
    neo4jAvailable := true
    graphRelated := fun _ => []
    synthesisOutcome := CallOutcome.callRaised }

/-- The full event trace of one request that reaches ANSWERED directly
(one model round, no tool calls). -/
def c3_trace : List Event :=
  (handle_user_request { provider_name := "openai", model_name := "gpt-4o-mini" }
      c3_env [] true [some { content := some "respuesta final", toolCalls := [] }]
      (fun _ => none) "hola").2

/-- Claim C3, counterexample — A request that reaches ANSWERED persists
turns (the key-value writes are present), yet the whole trace contains no
write to the relational summary store, and the similarity index receives
only the assistant turn — so the user and assistant turns are *not*
persisted to all four memory tiers. -/
theorem persistence_misses_relational_counterexample :
    c3_trace.filter (writes_tier Tier.relational) = [] ∧
    c3_trace.filter (writes_tier Tier.keyValue)
      = [Event.tierWrite Tier.keyValue Role.user "hola",
         Event.tierWrite Tier.keyValue Role.assistant "respuesta final"] ∧
    c3_trace.filter (writes_tier Tier.similarity)
      = [Event.tierWrite Tier.similarity Role.assistant "respuesta final"] := by
  refine ⟨by decide, by decide, by decide⟩

/-- Claim C3, amended — For every request that reaches ANSWERED, persistence
happens exactly once, after the tool-call loop (every memory write sits in
one contiguous `save_turn` block preceded by all main-chat model requests
and followed by no tier write): the block writes the user and final
assistant turns to the key-value store, the assistant turn only to the
similarity index, both turns to the relationship graph exactly when the
graph manager is available, and nothing to the relational store. -/
theorem persistence_once_after_loop (cfg : LLMConfig) (env : ContextEnv)
    (buffer : List Turn) (script : List (Option Msg))
    (find_plugin : String → Option String) (user_prompt : String) :
    ∃ (assistant_text : String) (pre post : List Event),
      (handle_user_request cfg env buffer true script find_plugin user_prompt).2
        = pre ++ save_turn_events user_prompt assistant_text env.neo4jAvailable
            ++ post ∧
      pre.all (fun e => !(is_tier_write e)) = true ∧
      post.all (fun e => !(is_tier_write e)) = true ∧
      post.all (fun e => !(is_main_chat_request e)) = true ∧
      (save_turn_events user_prompt assistant_text env.neo4jAvailable).all
          (fun e => !(is_main_chat_request e)) = true ∧
      (save_turn_events user_prompt assistant_text env.neo4jAvailable).filter
          (writes_tier Tier.relational) = [] ∧
      (save_turn_events user_prompt assistant_text env.neo4jAvailable).filter
          (writes_tier Tier.keyValue)
        = [Event.tierWrite Tier.keyValue Role.user user_prompt,
           Event.tierWrite Tier.keyValue Role.assistant assistant_text] ∧
      (save_turn_events user_prompt assistant_text env.neo4jAvailable).filter
          (writes_tier Tier.similarity)
        = [Event.tierWrite Tier.similarity Role.assistant assistant_text] ∧
      (save_turn_events user_prompt assistant_text env.neo4jAvailable).filter
          (writes_tier Tier.graph)
        = (if env.neo4jAvailable then
             [Event.tierWrite Tier.graph Role.user user_prompt,
              Event.tierWrite Tier.graph Role.assistant assistant_text]
           else []) := by
  refine ⟨(match (match (run_model_rounds
              { provider := cfg.provider_name, model := cfg.model_name }
              find_plugin script).1 with
           | some m => m.content
           | none => some fallback_answer) with
           | some t => t
           | none => ""),
          (build_augmented_prompt user_prompt buffer env).events
            ++ (run_model_rounds
                  { provider := cfg.provider_name, model := cfg.model_name }
                  find_plugin script).2,
          (if buffer.length + 2 > 10 then [Event.scheduleSummarize] else []),
          ?_, ?_, ?_, ?_, ?_, ?_, ?_, ?_, ?_⟩
  · simp [handle_user_request, List.append_assoc]
  · refine List.all_eq_true.mpr ?_
    intro e he
    rcases List.mem_append.mp he with he | he
    · rcases build_events_mem user_prompt buffer env e he with
        rfl | rfl | ⟨q, rfl⟩ | ⟨q, rfl⟩ | rfl <;> rfl
    · rcases run_model_rounds_events_mem _ _ _ e he with ⟨n, rfl⟩ | rfl <;> rfl
  · by_cases hs : buffer.length + 2 > 10 <;> simp [hs, is_tier_write]
  · by_cases hs : buffer.length + 2 > 10 <;> simp [hs, is_main_chat_request]
  · exact (save_turn_events_filters _ _ _).2.2.2.2
  · exact (save_turn_events_filters _ _ _).1
  · exact (save_turn_events_filters _ _ _).2.1
  · exact (save_turn_events_filters _ _ _).2.2.1
  · exact (save_turn_events_filters _ _ _).2.2.2.1

/-! ## C10 — internal model calls are pinned to openai/gpt-3.5-turbo -/

theorem tool_loop_result_irrel (k k' : ProviderKey)
    (fp : String → Option String) : ∀ (script : List (Option Msg))
    (r : Option Msg), (tool_loop k fp script r).1 = (tool_loop k' fp script r).1 := by
  intro script
  induction script with
  | nil =>
    intro r
    cases r with
    | none => rfl
    | some m => by_cases hm : m.toolCalls = [] <;> simp [tool_loop, hm]
  | cons r0 rest ih =>
    intro r
    cases r with
    | none => rfl
    | some m =>
      by_cases hm : m.toolCalls = []
      · simp [tool_loop, hm]
      · simp only [tool_loop, if_neg hm]
        exact ih r0

theorem run_model_rounds_result_irrel (k k' : ProviderKey)
    (fp : String → Option String) (script : List (Option Msg)) :
    (run_model_rounds k fp script).1 = (run_model_rounds k' fp script).1 := by
  cases script with
  | nil => rfl
  | cons r rest =>
    simp only [run_model_rounds]
    exact tool_loop_result_irrel k k' fp rest r

theorem run_model_rounds_filter_internal (k : ProviderKey)
    (fp : String → Option String) (script : List (Option Msg)) :
    (run_model_rounds k fp script).2.filter is_internal_request = [] := by
  refine List.filter_eq_nil_iff.mpr ?_
  intro e he
  rcases run_model_rounds_events_mem k fp script e he with ⟨n, rfl⟩ | rfl <;>
    simp [is_internal_request]

theorem save_turn_events_internal_ok (u a : String) (b : Bool) :
    (save_turn_events u a b).all internal_call_ok = true := by
  cases b <;> rfl

theorem summarizer_events_internal_ok (r : Option String) (st : SessionState) :
    (summarize_and_update_mid_term_memory r st).2.all internal_call_ok = true := by
  by_cases hb : st.buffer.length ≤ 10
  · simp [summarize_and_update_mid_term_memory, get_recent_turns, hb]
  · rcases r with _ | text <;>
      simp [summarize_and_update_mid_term_memory, get_recent_turns, hb,
            internal_call_ok]

/-- Claim C10 — For every value of the process-wide LLM settings, every
internal model request of the pipeline (entity extraction, context
synthesis, background summarization — every request that is not the main
conversation's) is addressed to provider `"openai"` with model
`"gpt-3.5-turbo"`, and the internal-request subtrace of a handled request
is identical under any two settings: the configured provider and model
have no influence on the backend serving the internal calls. -/
theorem internal_calls_fixed_key (cfg cfg' : LLMConfig) (env : ContextEnv)
    (buffer : List Turn) (provider_found : Bool) (script : List (Option Msg))
    (find_plugin : String → Option String) (user_prompt : String)
    (r : Option String) (st : SessionState) :
    (handle_user_request cfg env buffer provider_found script find_plugin
        user_prompt).2.all internal_call_ok = true ∧
    (summarize_and_update_mid_term_memory r st).2.all internal_call_ok = true ∧
    (handle_user_request cfg env buffer provider_found script find_plugin
        user_prompt).2.filter is_internal_request
      = (handle_user_request cfg' env buffer provider_found script find_plugin
          user_prompt).2.filter is_internal_request := by
  refine ⟨?_, summarizer_events_internal_ok r st, ?_⟩
  · cases provider_found with
    | false =>
      refine List.all_eq_true.mpr ?_
      intro e he
      simp only [handle_user_request, Bool.false_eq_true, if_false] at he
      rcases build_events_mem user_prompt buffer env e he with
        rfl | rfl | ⟨q, rfl⟩ | ⟨q, rfl⟩ | rfl <;> rfl
    | true =>
      refine List.all_eq_true.mpr ?_
      intro e he
      simp only [handle_user_request, if_true] at he
      rcases List.mem_append.mp he with he | he
      · rcases List.mem_append.mp he with he | he
        · rcases List.mem_append.mp he with he | he
          · rcases build_events_mem user_prompt buffer env e he with
              rfl | rfl | ⟨q, rfl⟩ | ⟨q, rfl⟩ | rfl <;> rfl
          · rcases run_model_rounds_events_mem _ _ _ e he with ⟨n, rfl⟩ | rfl <;> rfl
        · exact List.all_eq_true.mp (save_turn_events_internal_ok _ _ _) e he
      · by_cases hs : buffer.length + 2 > 10
        · simp [hs] at he
          simp [he, internal_call_ok]
        · simp [hs] at he
  · cases provider_found with
    | false => rfl
    | true =>
      simp only [handle_user_request, if_true]
      rw [List.filter_append, List.filter_append, List.filter_append,
          List.filter_append, List.filter_append, List.filter_append,
          run_model_rounds_filter_internal, run_model_rounds_filter_internal,
          run_model_rounds_result_irrel
            { provider := cfg.provider_name, model := cfg.model_name }
            { provider := cfg'.provider_name, model := cfg'.model_name }
            find_plugin script]
